import Mathlib

/-!
Verification of the Quran Mood Agent service (src/app.py) against its
natural-language specification.

The development shallowly embeds the pure request-processing logic of the
service.  External effects (the generative-model API, the verse HTTP API and
the process-wide pseudo-random number generator) are modelled as explicit
parameters: an `Env` structure of deterministic stub functions and an explicit
supply of random draws.  Python strings are modelled as `List Char` wrapped in
`String`; Python exceptions as `Except Unit`; JSON payloads as a mutual
inductive `Json` type.

The HTML cleaning pipeline (`clean_html_text`) is modelled for the fragment of
HTML the service manipulates: named character references with a terminating
semicolon from the table amp/lt/gt/quot/apos/nbsp, tags opened by `<` followed
by a letter, `/`, `!` or `?` and closed by the first `>` (unterminated markup
is flushed into the surrounding text), and the ASCII + NBSP whitespace set of
`str.strip` / `\s`.  This mirrors `html.unescape` composed with
`BeautifulSoup(..., "html.parser").get_text(separator=" ", strip=True)` on
that fragment, followed by the NBSP replacement, strip and whitespace collapse
performed by the source.
-/

namespace QuranAgent

/-! ### Python-style character and string primitives -/

/-- The whitespace characters recognised by `str.strip` and `\s+` that can
occur in this pipeline: space, tab, LF, CR, VT, FF and NBSP (U+00A0). -/
def isPySpace (c : Char) : Bool :=
  c.toNat = 32 || c.toNat = 9 || c.toNat = 10 || c.toNat = 13 ||
  c.toNat = 11 || c.toNat = 12 || c.toNat = 160

/-- `str.lower` on the ASCII range, which is `Char.toLower`. -/
def pyLowerL (l : List Char) : List Char := l.map Char.toLower

/-- `str.strip()`: drop leading and trailing whitespace. -/
def pyStripL (l : List Char) : List Char :=
  (l.dropWhile isPySpace).rdropWhile isPySpace

def pyStrip (s : String) : String := ⟨pyStripL s.data⟩

/-- Python `needle in hay` substring containment on character lists. -/
def isSubL (p : List Char) : List Char → Bool
  | [] => p.isEmpty
  | c :: rest => p.isPrefixOf (c :: rest) || isSubL p rest

/-- Python `needle in hay` on strings. -/
def pySub (needle hay : String) : Bool := isSubL needle.data hay.data

/-! ### The Text Cleaner (`clean_html_text`) -/

/-- Result of feeding one character to the entity recogniser: the reference
is complete and decodes to a character, the character extends a (strict)
prefix of a reference name, or the accumulated text is not a reference. -/
inductive EntRes where
  | emit : Char → EntRes
  | extend : EntRes
  | fail : EntRes

/-- One step of recognising the semicolon-terminated references
`amp; lt; gt; quot; apos; nbsp;` after a `&`: `buf` is the name matched so
far. -/
def entStep (buf : List Char) (c : Char) : EntRes :=
  match buf with
  | [] =>
    if c = 'a' ∨ c = 'l' ∨ c = 'g' ∨ c = 'q' ∨ c = 'n' then .extend else .fail
  | ['a'] => if c = 'm' ∨ c = 'p' then .extend else .fail
  | ['a', 'm'] => if c = 'p' then .extend else .fail
  | ['a', 'm', 'p'] => if c = ';' then .emit '&' else .fail
  | ['a', 'p'] => if c = 'o' then .extend else .fail
  | ['a', 'p', 'o'] => if c = 's' then .extend else .fail
  | ['a', 'p', 'o', 's'] => if c = ';' then .emit (Char.ofNat 39) else .fail
  | ['l'] => if c = 't' then .extend else .fail
  | ['l', 't'] => if c = ';' then .emit '<' else .fail
  | ['g'] => if c = 't' then .extend else .fail
  | ['g', 't'] => if c = ';' then .emit '>' else .fail
  | ['q'] => if c = 'u' then .extend else .fail
  | ['q', 'u'] => if c = 'o' then .extend else .fail
  | ['q', 'u', 'o'] => if c = 't' then .extend else .fail
  | ['q', 'u', 'o', 't'] => if c = ';' then .emit '"' else .fail
  | ['n'] => if c = 'b' then .extend else .fail
  | ['n', 'b'] => if c = 's' then .extend else .fail
  | ['n', 'b', 's'] => if c = 'p' then .extend else .fail
  | ['n', 'b', 's', 'p'] => if c = ';' then .emit (Char.ofNat 160) else .fail
  | _ => .fail

/-- Scanner for one pass of character-reference decoding: `none` state is
plain text; `some buf` means a `&` was read and `buf` is the name matched so
far.  On a failed reference the consumed characters stand literally and
scanning resumes at the failing character. -/
def uGo : List Char → Option (List Char) → List Char
  | [], none => []
  | [], some buf => '&' :: buf
  | c :: t, none =>
    if c = '&' then uGo t (some [])
    else c :: uGo t none
  | c :: t, some buf =>
    match entStep buf c with
    | .emit d => d :: uGo t none
    | .extend => uGo t (some (buf ++ [c]))
    | .fail =>
      '&' :: buf ++ (if c = '&' then uGo t (some []) else c :: uGo t none)

/-- One pass of HTML named-character-reference decoding over the table
amp/lt/gt/quot/apos/nbsp (semicolon-terminated forms).  Models both
`html.unescape` and the reference conversion done by `html.parser`
(`convert_charrefs=True`) on this fragment. -/
def unescapeL (l : List Char) : List Char := uGo l none

/-- `html.parser` starts a markup construct at `<` only when the next
character is a letter, `/`, `!` or `?`. -/
def isTagOpener (c : Char) : Bool := c.isAlpha || c = '/' || c = '!' || c = '?'

/-- Split a character stream into the text runs lying between markup
constructs.  State: `acc` is the current text run (reversed); a `some buf`
third argument means we are inside a markup construct whose characters so far
are `buf` (reversed).  A construct ends at the first `>`; at end of input an
unterminated construct is flushed back into the text run, as `html.parser`
ultimately emits such trailing junk as data. -/
def smGo : List Char → List Char → Option (List Char) → List (List Char)
  | [], acc, none => [acc.reverse]
  | [], acc, some buf => [acc.reverse ++ '<' :: buf.reverse]
  | c :: rest, acc, none =>
    if c = '<' then
      match rest with
      | [] => [('<' :: acc).reverse]
      | d :: _ =>
        if isTagOpener d then smGo rest acc (some [])
        else smGo rest ('<' :: acc) none
    else smGo rest (c :: acc) none
  | c :: rest, acc, some buf =>
    if c = '>' then acc.reverse :: smGo rest [] none
    else smGo rest acc (some (c :: buf))

def splitMarkup (l : List Char) : List (List Char) := smGo l [] none

/-- `soup.get_text(separator=" ", strip=True)`: the text runs, each with
character references decoded and stripped, the empty ones dropped, joined by
a single space. -/
def getTextFragments (l : List Char) : List (List Char) :=
  ((splitMarkup l).map (fun f => pyStripL (unescapeL f))).filter (fun f => !f.isEmpty)

def getTextL (l : List Char) : List Char := List.intercalate [' '] (getTextFragments l)

/-- `cleaned.replace("\xa0", " ")`. -/
def replaceNbsp (l : List Char) : List Char :=
  l.map (fun c => if c.toNat = 160 then ' ' else c)

def toSpaceChar (c : Char) : Char := if isPySpace c then ' ' else c

/-- Collapse runs of `' '` to a single `' '`. -/
def squashSpaces : List Char → List Char
  | [] => []
  | [c] => [c]
  | a :: b :: rest =>
    if a = ' ' && b = ' ' then squashSpaces (b :: rest)
    else a :: squashSpaces (b :: rest)

/-- `re.sub(r"\s+", " ", s)`: every maximal whitespace run becomes one space. -/
def collapseWs (l : List Char) : List Char := squashSpaces (l.map toSpaceChar)

/-- `clean_html_text` from src/app.py: falsy input gives `""`; otherwise
unescape, extract text via the parser, replace NBSP, strip, collapse
whitespace. -/
def cleanL (l : List Char) : List Char :=
  if l.isEmpty then []
  else collapseWs (pyStripL (replaceNbsp (getTextL (unescapeL l))))

def clean_html_text (s : String) : String := ⟨cleanL s.data⟩

example : clean_html_text "<b>Hi&nbsp;there</b>" = "Hi there" := by decide
example : clean_html_text "" = "" := by decide
example : clean_html_text "  a   b " = "a b" := by decide

/-! ### JSON values

Payloads are untyped JSON.  `JsonArr`/`JsonObj` are unrolled list types so
that all recursion over payloads is plainly structural.  Object fields are in
insertion order, matching Python dict iteration order. -/

mutual
inductive Json where
  | null : Json
  | jbool : Bool → Json
  | jnum : Int → Json
  | jstr : String → Json
  | jarr : JsonArr → Json
  | jobj : JsonObj → Json
inductive JsonArr where
  | anil : JsonArr
  | acons : Json → JsonArr → JsonArr
inductive JsonObj where
  | onil : JsonObj
  | ocons : String → Json → JsonObj → JsonObj
end

def JsonArr.toList : JsonArr → List Json
  | .anil => []
  | .acons h t => h :: t.toList

/-- Python `dict.get` (JSON objects have distinct keys). -/
def JsonObj.lookup : JsonObj → String → Option Json
  | .onil, _ => none
  | .ocons k v t, key => if k = key then some v else t.lookup key

/-- Python truthiness of a JSON value. -/
def Json.truthy : Json → Bool
  | .null => false
  | .jbool b => b
  | .jnum n => !(n == 0)
  | .jstr s => !(s == "")
  | .jarr .anil => false
  | .jarr (.acons _ _) => true
  | .jobj .onil => false
  | .jobj (.ocons _ _ _) => true

/-- Python `d[k]`: `KeyError` on a missing key, `TypeError` on a non-dict. -/
def Json.idx : Json → String → Except Unit Json
  | .jobj fs, k =>
    match fs.lookup k with
    | some v => .ok v
    | none => .error ()
  | _, _ => .error ()

/-! ### The Payload Extractor (`extract_user_message_generic`) -/

mutual
/-- The inner `collect_texts` helper of stage 4: every string found under a
key literally named `"text"` whose `strip()` is truthy, in traversal order. -/
def collectTexts : Json → List String
  | .jarr xs => collectTextsArr xs
  | .jobj fs => collectTextsObj fs
  | _ => []
def collectTextsArr : JsonArr → List String
  | .anil => []
  | .acons h t => collectTexts h ++ collectTextsArr t
def collectTextsObj : JsonObj → List String
  | .onil => []
  | .ocons k v t =>
    (if k = "text" then
      match v with
      | .jstr s => if (pyStripL s.data).isEmpty then [] else [s]
      | _ => collectTexts v
    else collectTexts v) ++ collectTextsObj t
end

/-- `entry.get("text") or entry.get("content") or entry.get("message")`:
Python `or` keeps the first truthy operand, else the last operand
(`dict.get` returning `None` for a missing key). -/
def orChain (entry : JsonObj) : Json :=
  let t := (entry.lookup "text").getD .null
  if t.truthy then t
  else
    let c := (entry.lookup "content").getD .null
    if c.truthy then c
    else (entry.lookup "message").getD .null

/-- `clean_html_text` applied to an arbitrary value: falsy values give `""`
(the `if not raw` guard), truthy strings are cleaned, and a truthy non-string
raises `TypeError` inside `html.unescape`. -/
def cleanJson (v : Json) : Except Unit String :=
  if v.truthy then
    match v with
    | .jstr s => .ok (clean_html_text s)
    | _ => .error ()
  else .ok ""

/-- The stage-1 loop body over the (already reversed) inner message list:
skip non-dict entries, return the first non-empty cleaned text. -/
def scanEntries : List Json → Except Unit (Option String)
  | [] => .ok none
  | e :: rest =>
    match e with
    | .jobj f =>
      match cleanJson (orChain f) with
      | .error _ => .error ()
      | .ok c => if c = "" then scanEntries rest else .ok (some c)
    | _ => scanEntries rest

/-- Stage 1, the nested-list shape: `payload["messages"][0]["messages"]`
scanned in reverse.  A non-dict first element makes `first.get` raise
`AttributeError`. -/
def nestedStage (fs : JsonObj) : Except Unit (Option String) :=
  match fs.lookup "messages" with
  | some (.jarr (.acons first _)) =>
    match first with
    | .jobj f1 =>
      match f1.lookup "messages" with
      | some (.jarr inner) =>
        match inner with
        | .anil => .ok none
        | .acons _ _ => scanEntries inner.toList.reverse
      | _ => .ok none
    | _ => .error ()
  | _ => .ok none

/-- Stage 3, the flat shapes: top-level string fields `message`, `content`,
`text`, in that order. -/
def flatStage (fs : JsonObj) : Option String :=
  match fs.lookup "message" with
  | some (.jstr s) => some (clean_html_text s)
  | _ =>
    match fs.lookup "content" with
    | some (.jstr s) => some (clean_html_text s)
    | _ =>
      match fs.lookup "text" with
      | some (.jstr s) => some (clean_html_text s)
      | _ => none

/-- The body of `extract_user_message_generic` inside its `try`: a non-dict
payload makes `payload.get` raise. -/
def extractE : Json → Except Unit String
  | .jobj fs =>
    match nestedStage fs with
    | .error _ => .error ()
    | .ok (some s) => .ok s
    | .ok none =>
      match flatStage fs with
      | some s => .ok s
      | none =>
        match (collectTexts (.jobj fs)).getLast? with
        | some t => .ok (clean_html_text t)
        | none => .ok ""
  | _ => .error ()

/-- `extract_user_message_generic`: the surrounding `except` turns any
exception into `""`. -/
def extract_user_message_generic (p : Json) : String :=
  match extractE p with
  | .ok s => s
  | .error _ => ""

/-! ### External-call environment

`generate` is the generative-model stub (`none` models a raised exception in
`model.generate_content` / reading `response.text`); `surah` is the verse-API
stub for `GET /surah/{n}`.  Random draws are passed explicitly: the i-th call
to the Quote Fetcher in a run receives the pair `rng i`, whose first
component determines `random.randint(1, 114)` and whose second determines the
index drawn by `random.choice`. -/

inductive SurahOutcome where
  | netError : SurahOutcome
  | resp : Nat → Option Json → SurahOutcome

structure Env where
  generate : String → Option String
  surah : Nat → SurahOutcome

/-! ### The Quote Fetcher (`get_random_quran_quote`) -/

mutual
/-- Python `str()` of a JSON value (containers rendered via `repr` of their
elements, as Python does; string escaping inside `repr` is not modelled). -/
def pyStr : Json → String
  | .null => "None"
  | .jbool b => cond b "True" "False"
  | .jnum n => toString n
  | .jstr s => s
  | .jarr xs => "[" ++ pyReprArr xs ++ "]"
  | .jobj fs => "\x7b" ++ pyReprObj fs ++ "\x7d"
def pyRepr : Json → String
  | .null => "None"
  | .jbool b => cond b "True" "False"
  | .jnum n => toString n
  | .jstr s => "\x27" ++ s ++ "\x27"
  | .jarr xs => "[" ++ pyReprArr xs ++ "]"
  | .jobj fs => "\x7b" ++ pyReprObj fs ++ "\x7d"
def pyReprArr : JsonArr → String
  | .anil => ""
  | .acons h .anil => pyRepr h
  | .acons h (.acons h2 t) => pyRepr h ++ ", " ++ pyReprArr (.acons h2 t)
def pyReprObj : JsonObj → String
  | .onil => ""
  | .ocons k v .onil => "\x27" ++ k ++ "\x27: " ++ pyRepr v
  | .ocons k v (.ocons k2 v2 t) =>
    "\x27" ++ k ++ "\x27: " ++ pyRepr v ++ ", " ++ pyReprObj (.ocons k2 v2 t)
end

/-- `f'"{text}" (Quran {surah_name}:{ayah_number})'`. -/
def quoteFormat (text name num : Json) : String :=
  "\"" ++ pyStr text ++ "\" (Quran " ++ pyStr name ++ ":" ++ pyStr num ++ ")"

def FETCH_APOLOGY : String :=
  "I\x27m sorry, I couldn\x27t fetch a Quran quote at this moment. Please try again later."

/-- The body of `get_random_quran_quote` inside its `try`: pick the chapter,
issue the request (`raise_for_status` raising on any status ≥ 400), parse
`data.ayahs`, pick a random ayah and format it.  Every malformed shape maps
to the exception Python would raise at that spot. -/
def fetchQuoteE (env : Env) (draws : Nat × Nat) : Except Unit String :=
  match env.surah (1 + draws.1 % 114) with
  | .netError => .error ()
  | .resp status body =>
    if 400 ≤ status then .error ()
    else
      match body with
      | none => .error ()
      | some j =>
        match j.idx "data" with
        | .error _ => .error ()
        | .ok data =>
          match data.idx "ayahs" with
          | .error _ => .error ()
          | .ok ayahsJ =>
            match ayahsJ with
            | .jarr ayahs =>
              match ayahs.toList with
              | [] => .error ()
              | a :: as =>
                let l := a :: as
                let ay := l.getD (draws.2 % l.length) .null
                match ay.idx "text" with
                | .error _ => .error ()
                | .ok t =>
                  match data.idx "englishName" with
                  | .error _ => .error ()
                  | .ok name =>
                    match ay.idx "numberInSurah" with
                    | .error _ => .error ()
                    | .ok num => .ok (quoteFormat t name num)
            | _ => .error ()

/-- `get_random_quran_quote`: the `except` converts every failure into the
fixed apology string. -/
def get_random_quran_quote (env : Env) (draws : Nat × Nat) : String :=
  match fetchQuoteE env draws with
  | .ok s => s
  | .error _ => FETCH_APOLOGY

/-! ### The Mood Classifier (`detect_mood_with_gemini`) -/

/-- The keys of `MOOD_MAPPING`, in insertion order. -/
def MOOD_LABELS : List String :=
  ["happy", "sad", "anxious", "angry", "grateful", "stressed", "hopeful",
   "fearful", "calm", "lonely", "confused", "motivated", "tired", "thankful",
   "inspired"]

def moodPrompt (text : String) : String :=
  "Analyze the following text and identify the primary mood expressed. " ++
  "Respond with a single word (e.g., happy, sad, anxious, angry, grateful, stressed, hopeful, fearful, calm, lonely, confused, motivated, tired, thankful, inspired). " ++
  "If the mood is unclear or neutral, respond with \x27unknown\x27.\n\nText: \x27" ++
  text ++ "\x27\nMood:"

/-- The classifier loop: the first label (in declared order) occurring as a
substring of the prepared reply text. -/
def scanMoods : List String → List Char → String
  | [], _ => "unknown"
  | m :: ms, t => if isSubL m.data t then m else scanMoods ms t

/-- `detect_mood_with_gemini` applied to the model's reply
(`none` = the call raised): `response.text.strip().lower()` then the label
scan; any failure yields `"unknown"`. -/
def detect_mood_with_gemini (reply : Option String) : String :=
  match reply with
  | none => "unknown"
  | some raw => scanMoods MOOD_LABELS (pyLowerL (pyStripL raw.data))

/-! ### The Response Composer (`get_smart_quran_response`) -/

def promptDirectVerse (mood msg : String) : String :=
  "The user is feeling " ++ mood ++ " because they said: \"" ++ msg ++ "\".\n" ++
  "Provide a highly relevant Quranic verse (Surah:Ayah) and a brief explanation of how it addresses their mood.\n" ++
  "If you cannot find a specific verse, just say \x27NO_VERSE_FOUND\x27.\n" ++
  "Format your response strictly as:\n" ++
  "Verse: [Surah:Ayah] - [English Translation]\n" ++
  "Explanation: [Your explanation]"

/-- The fallback prompt.  Note the third line of the source is a plain (not
f-) string, so `\x7bmood\x7d` appears literally. -/
def promptExplainRandom (mood msg quote : String) : String :=
  "The user is feeling " ++ mood ++ " because they said: \"" ++ msg ++ "\".\n" ++
  "Here is a Quranic verse: " ++ quote ++ ".\n" ++
  "Explain how this verse can be relevant or comforting to someone feeling \x7bmood\x7d.\n" ++
  "Format your response strictly as:\n" ++
  "Verse: " ++ quote ++ "\nExplanation:"

def TAILORED_APOLOGY (fallback : String) : String :=
  "I\x27m sorry — couldn\x27t get a tailored verse. Here\x27s something to reflect on: " ++ fallback

/-- The Stage-1 success test: no `NO_VERSE_FOUND`, and both labels present. -/
def stage1Success (out : String) : Bool :=
  !pySub "NO_VERSE_FOUND" out && pySub "Verse:" out && pySub "Explanation:" out

/-- One composer run: the output string together with how many
`model.generate_content` calls and how many Quote Fetcher calls were made. -/
structure ComposerRun where
  output : String
  modelCalls : Nat
  fetchCalls : Nat
deriving DecidableEq

/-- `get_smart_quran_response`.  Stage 1 asks for a direct verse; on failure
of the success test, Stage 2 fetches a random quote (first draw) and asks the
model to explain it.  An exception in either model call is absorbed by the
outer `except`, which fetches once more and returns the hand-composed
apology. -/
def get_smart_quran_response (env : Env) (rng : Nat → Nat × Nat)
    (mood msg : String) : ComposerRun :=
  match env.generate (promptDirectVerse mood msg) with
  | some raw =>
    let out := pyStrip raw
    if stage1Success out then ⟨out, 1, 0⟩
    else
      let q := get_random_quran_quote env (rng 0)
      match env.generate (promptExplainRandom mood msg q) with
      | some raw2 => ⟨pyStrip raw2, 2, 1⟩
      | none => ⟨TAILORED_APOLOGY (get_random_quran_quote env (rng 1)), 2, 2⟩
  | none => ⟨TAILORED_APOLOGY (get_random_quran_quote env (rng 0)), 1, 1⟩

/-! ### Request handlers -/

def GREETING_RESPONSE : String :=
  "Assalamu Alaikum! I am your Quran Mood Agent. Tell me how you\x27re feeling, and I\x27ll find a relevant Quranic verse for you."

def UNKNOWN_MOOD_RESPONSE : String :=
  "I couldn\x27t understand your mood. Please try expressing it more clearly so I can find a relevant Quran quote."

def NO_CLEAR_MESSAGE : String :=
  "I didn\x27t receive a clear message. Please try again."

/-- `any(g in text_lower for g in ["hello", "hi", "hey"])`. -/
def isGreeting (lowered : List Char) : Bool :=
  isSubL "hello".data lowered || isSubL "hi".data lowered || isSubL "hey".data lowered

structure TxPart where
  type : String
  text : String
deriving DecidableEq

structure TxParams where
  role : String
  parts : List TxPart
deriving DecidableEq

structure TxResult where
  role : String
  parts : List TxPart
  kind : String
  message_id : String
deriving DecidableEq

/-- `part.type == "text" and part.text` — the loop condition of
`handle_message_send`. -/
def isTextPart (q : TxPart) : Bool := q.type = "text" && !(q.text == "")

/-- The part-extraction loop of `handle_message_send`: the first part whose
`type` is `"text"` and whose `text` is truthy is cleaned and the loop breaks;
otherwise the message stays `""`. -/
def firstTextLoop : List TxPart → String
  | [] => ""
  | p :: rest =>
    if isTextPart p then clean_html_text p.text
    else firstTextLoop rest

/-- The tail of `handle_message_send` after the user message is fixed:
empty-message check, greeting short-circuit, mood detection, composition. -/
def txCore (env : Env) (rng : Nat → Nat × Nat) (user_message : String) :
    Except (Nat × String) TxResult :=
  if user_message = "" || pyStrip user_message = "" then
    .error (400, NO_CLEAR_MESSAGE)
  else if isGreeting (pyLowerL user_message.data) then
    .ok ⟨"agent", [⟨"text", GREETING_RESPONSE⟩], "message", "generated-msg-id"⟩
  else
    let mood := detect_mood_with_gemini (env.generate (moodPrompt user_message))
    if mood = "unknown" then
      .ok ⟨"agent", [⟨"text", UNKNOWN_MOOD_RESPONSE⟩], "message", "generated-msg-id"⟩
    else
      .ok ⟨"agent",
           [⟨"text", (get_smart_quran_response env rng mood user_message).output⟩],
           "message", "generated-msg-id"⟩

/-- `handle_message_send`: `.error (status, detail)` models a raised
`HTTPException`. -/
def handle_message_send (env : Env) (rng : Nat → Nat × Nat)
    (params : TxParams) : Except (Nat × String) TxResult :=
  txCore env rng (firstTextLoop params.parts)

/-- A JSON-RPC request that passed pydantic validation of
`TelexRpcRequest`. -/
structure RpcRequest where
  jsonrpc : String
  method : String
  id : Json
  params : TxParams

inductive RpcBody where
  | success : Json → TxResult → RpcBody
  | rpcError : Json → Int → String → RpcBody

/-- The JSON-RPC error code carried by a response body, if any. -/
def RpcBody.errCode : RpcBody → Option Int
  | .success _ _ => none
  | .rpcError _ c _ => some c

def VERSION_ERROR_MESSAGE : String := "Invalid JSON-RPC version. Must be \x272.0\x27."

/-- The `POST /` handler on a validated request: HTTP status paired with the
JSON-RPC body. -/
def handle_telex_rpc_request (env : Env) (rng : Nat → Nat × Nat)
    (req : RpcRequest) : Nat × RpcBody :=
  if req.jsonrpc ≠ "2.0" then
    (400, .rpcError req.id (-32600) VERSION_ERROR_MESSAGE)
  else if req.method = "message/send" then
    match handle_message_send env rng req.params with
    | .ok r => (200, .success req.id r)
    | .error (code, msg) => (code, .rpcError req.id (Int.ofNat code) msg)
  else (405, .rpcError req.id (-32601) "Method not found")

/-! ### The generic endpoint (`agent_endpoint`) -/

inductive AgentBody where
  | ok : String → String → AgentBody
  | err : String → Nat → AgentBody
deriving DecidableEq

/-- Pydantic parse of `TelexInputMessage` (`kind: str` required, `role` and
`content` optional strings, extra fields ignored), returning the `content`
field on success. -/
def parseTelexInput (p : Json) : Option (Option String) :=
  match p with
  | .jobj fs =>
    match fs.lookup "kind" with
    | some (.jstr _) =>
      let roleOk :=
        match fs.lookup "role" with
        | none => true
        | some .null => true
        | some (.jstr _) => true
        | some _ => false
      let contentV := fs.lookup "content"
      let contentOk :=
        match contentV with
        | none => true
        | some .null => true
        | some (.jstr _) => true
        | some _ => false
      if roleOk && contentOk then
        some (match contentV with
              | some (.jstr s) => some s
              | _ => none)
      else none
    | _ => none
  | _ => none

/-- Pydantic parse of `SimpleMessageInput` (`message: str` required). -/
def parseSimple (p : Json) : Option String :=
  match p with
  | .jobj fs =>
    match fs.lookup "message" with
    | some (.jstr s) => some s
    | _ => none
  | _ => none

/-- The three parse strategies of `agent_endpoint`, in order: the
`TelexInputMessage` shape with truthy `content`, then `SimpleMessageInput`
(which sets `parsed` even when the cleaned message is empty), then the
generic extractor. -/
def computeUserMessage (p : Json) : String :=
  let step1 : Option String :=
    match parseTelexInput p with
    | some (some c) => if c = "" then none else some (clean_html_text c)
    | _ => none
  match step1 with
  | some m => m
  | none =>
    match parseSimple p with
    | some s => clean_html_text s
    | none => extract_user_message_generic p

/-- The tail of `agent_endpoint` after message extraction; the second
component counts Quote Fetcher calls made during the run. -/
def agentCore (env : Env) (rng : Nat → Nat × Nat) (user_message : String) :
    (Nat × AgentBody) × Nat :=
  if user_message = "" || pyStrip user_message = "" then
    ((400, .err NO_CLEAR_MESSAGE 400), 0)
  else if isGreeting (pyLowerL user_message.data) then
    ((200, .ok GREETING_RESPONSE "greeting"), 0)
  else
    let mood := detect_mood_with_gemini (env.generate (moodPrompt user_message))
    if mood = "unknown" then ((200, .ok UNKNOWN_MOOD_RESPONSE "unknown"), 0)
    else
      let r := get_smart_quran_response env rng mood user_message
      ((200, .ok r.output mood), r.fetchCalls)

/-- `POST /agent` on a parsed JSON body: HTTP status and response body,
paired with the number of Quote Fetcher calls. -/
def agent_endpoint (env : Env) (rng : Nat → Nat × Nat) (p : Json) :
    (Nat × AgentBody) × Nat :=
  agentCore env rng (computeUserMessage p)

/-! ### Substring and whitespace lemmas -/

theorem bool_eq_of_iff {a b : Bool} (h : a = true ↔ b = true) : a = b := by
  cases a <;> cases b <;> simp_all

theorem isSubL_iff {p l : List Char} : isSubL p l = true ↔ p <:+: l := by
  induction l with
  | nil => simp [isSubL, List.isEmpty_iff]
  | cons c t ih => simp [isSubL, List.infix_cons_iff, ih]

/-- A nonempty whitespace-free pattern occurring in `s` also occurs after the
leading whitespace of `s` is dropped. -/
theorem occurrence_dropWhile_of_occurrence {p s : List Char} (hne : p ≠ [])
    (hw : ∀ c ∈ p, isPySpace c = false) (h : p <:+: s) :
    p <:+: s.dropWhile isPySpace := by
  induction s with
  | nil => simpa using h
  | cons a t ih =>
    rw [List.dropWhile_cons]
    split
    · next ha =>
      apply ih
      rcases List.infix_cons_iff.mp h with hpre | hinf
      · exfalso
        rcases p with _ | ⟨p0, pr⟩
        · exact hne rfl
        · have hpa : p0 = a := (List.cons_prefix_cons.mp hpre).1
          have := hw p0 (List.mem_cons_self _ _)
          rw [hpa, ha] at this
          exact Bool.true_eq_false.mp this
      · exact hinf
    · exact h

theorem occurrence_rdropWhile_of_occurrence {p s : List Char} (hne : p ≠ [])
    (hw : ∀ c ∈ p, isPySpace c = false) (h : p <:+: s) :
    p <:+: s.rdropWhile isPySpace := by
  rw [List.rdropWhile]
  have h2 : p.reverse <:+: s.reverse := List.reverse_infix.mpr h
  have h3 :=
    occurrence_dropWhile_of_occurrence (p := p.reverse) (by simpa using hne)
      (fun c hc => hw c (List.mem_reverse.mp hc)) h2
  have h4 := List.reverse_infix.mpr h3
  simpa using h4

/-- Stripping leading/trailing whitespace neither creates nor destroys
occurrences of a nonempty whitespace-free pattern. -/
theorem infix_pyStripL_iff {p s : List Char} (hne : p ≠ [])
    (hw : ∀ c ∈ p, isPySpace c = false) :
    p <:+: pyStripL s ↔ p <:+: s := by
  constructor
  · intro h
    refine h.trans ?_
    unfold pyStripL
    exact (List.rdropWhile_prefix _ _).isInfix.trans (List.dropWhile_suffix _).isInfix
  · intro h
    exact occurrence_rdropWhile_of_occurrence hne hw (occurrence_dropWhile_of_occurrence hne hw h)

theorem toNat_ofNat_of_lt {n : Nat} (h : n < 55296) : (Char.ofNat n).toNat = n := by
  rw [Char.ofNat, dif_pos (Or.inl h)]
  rfl

/-- ASCII lowercasing maps whitespace to whitespace and non-whitespace to
non-whitespace. -/
theorem isPySpace_toLower (c : Char) : isPySpace c.toLower = isPySpace c := by
  rw [Char.toLower]
  split
  · next h =>
    have h32 : (Char.ofNat (c.toNat + 32)).toNat = c.toNat + 32 :=
      toNat_ofNat_of_lt (by omega)
    apply bool_eq_of_iff
    simp only [isPySpace, h32, Bool.or_eq_true, decide_eq_true_eq]
    omega
  · rfl

theorem dropWhile_pyLowerL (m : List Char) :
    (pyLowerL m).dropWhile isPySpace = pyLowerL (m.dropWhile isPySpace) := by
  unfold pyLowerL
  rw [List.dropWhile_map]
  have : (isPySpace ∘ Char.toLower) = isPySpace := funext isPySpace_toLower
  rw [this]

theorem pyLower_pyStrip_comm (l : List Char) :
    pyLowerL (pyStripL l) = pyStripL (pyLowerL l) := by
  unfold pyStripL
  rw [dropWhile_pyLowerL, List.rdropWhile, List.rdropWhile]
  unfold pyLowerL
  rw [← List.map_reverse, List.dropWhile_map,
    show (isPySpace ∘ Char.toLower) = isPySpace from funext isPySpace_toLower,
    List.map_reverse]

theorem scanMoods_eq_findFirst (ms : List String) (t : List Char) :
    scanMoods ms t = ((ms.find? fun m => isSubL m.data t).getD "unknown") := by
  induction ms with
  | nil => rfl
  | cons m ms ih =>
    rw [scanMoods]
    by_cases h : isSubL m.data t = true
    · simp [List.find?_cons, h]
    · rw [List.find?_cons]
      simp only [Bool.not_eq_true] at h
      simp [h, ih]

theorem findFirst_congr {α : Type} (p q : α → Bool) (l : List α)
    (h : ∀ a ∈ l, p a = q a) : l.find? p = l.find? q := by
  induction l with
  | nil => rfl
  | cons a t ih =>
    simp only [List.find?_cons]
    rw [h a (List.mem_cons_self a t)]
    cases q a with
    | true => rfl
    | false => exact ih fun b hb => h b (List.mem_cons_of_mem _ hb)

theorem mood_labels_wf :
    ∀ m ∈ MOOD_LABELS, m.data ≠ [] ∧ ∀ c ∈ m.data, isPySpace c = false := by
  decide

/-! ### C4: the Mood Classifier scans labels in order over the lowered reply -/

/-- C4.  For every model reply, the Mood Classifier returns the first label of
the fixed 15-label set (in its declared iteration order) occurring as a
substring of the lower-cased reply text, and `"unknown"` when no label occurs
or the model call fails.  (The code scans `reply.strip().lower()`; stripping
neither creates nor destroys occurrences of the whitespace-free labels, so
the scan over the lower-cased reply is equivalent.) -/
theorem mood_classifier_first_label (reply : String) :
    detect_mood_with_gemini (some reply) =
      ((MOOD_LABELS.find? fun m => isSubL m.data (pyLowerL reply.data)).getD "unknown") ∧
    detect_mood_with_gemini none = "unknown" := by
  refine ⟨?_, rfl⟩
  show scanMoods MOOD_LABELS (pyLowerL (pyStripL reply.data)) = _
  rw [scanMoods_eq_findFirst]
  have key : ∀ m ∈ MOOD_LABELS,
      isSubL m.data (pyLowerL (pyStripL reply.data)) =
      isSubL m.data (pyLowerL reply.data) := by
    intro m hm
    obtain ⟨h1, h2⟩ := mood_labels_wf m hm
    rw [pyLower_pyStrip_comm]
    apply bool_eq_of_iff
    rw [isSubL_iff, isSubL_iff]
    exact infix_pyStripL_iff h1 h2
  rw [findFirst_congr _ _ _ key]

/-! ### C2: the Stage-1 success test of the Composer -/

/-- C2.  When the Stage-1 model call returns a reply, the trimmed reply is
returned as the composed response with no Quote Fetcher call made if and only
if it passes the three-condition success test (no `NO_VERSE_FOUND`, contains
`Verse:`, contains `Explanation:`); when the test fails, Stage 2 is triggered
(at least one Quote Fetcher call is made). -/
theorem composer_stage1_iff (env : Env) (rng : Nat → Nat × Nat)
    (mood msg raw : String)
    (h : env.generate (promptDirectVerse mood msg) = some raw) :
    (((get_smart_quran_response env rng mood msg).output = pyStrip raw ∧
      (get_smart_quran_response env rng mood msg).fetchCalls = 0) ↔
      stage1Success (pyStrip raw) = true) ∧
    (stage1Success (pyStrip raw) = false →
      1 ≤ (get_smart_quran_response env rng mood msg).fetchCalls) := by
  unfold get_smart_quran_response
  rw [h]
  by_cases hs : stage1Success (pyStrip raw) = true
  · simp [hs]
  · simp only [Bool.not_eq_true] at hs
    cases g2 : env.generate (promptExplainRandom mood msg
        (get_random_quran_quote env (rng 0))) <;> simp [hs, g2]

def envC2 : Env := ⟨fun _ => some "Verse: x Explanation: y", fun _ => .netError⟩

theorem composer_stage1_iff_witness :
    (get_smart_quran_response envC2 (fun _ => (0, 0)) "happy" "m").output =
      pyStrip "Verse: x Explanation: y" ∧
    (get_smart_quran_response envC2 (fun _ => (0, 0)) "happy" "m").fetchCalls = 0 :=
  (composer_stage1_iff envC2 (fun _ => (0, 0)) "happy" "m"
    "Verse: x Explanation: y" rfl).1.mpr (by decide)

/-! ### C1: the Composer does NOT short-circuit on the Quote Fetcher apology

The spec claims that when Stage 1 fails and the Quote Fetcher returns its
apology sentinel, the Composer detects this by substring match and returns
the apology without a second model call.  `get_smart_quran_response` contains
no such check: the fallback always issues the second model call with the
apology text embedded in the prompt. -/

def envC1 : Env :=
  ⟨fun p => if p = promptDirectVerse "sad" "m" then some "NO_VERSE_FOUND"
            else some "EXPLAINED",
   fun _ => .netError⟩

set_option maxRecDepth 8192 in
/-- Counterexample to C1: Stage 1 fails its success test and the Quote
Fetcher returns the apology sentinel, yet the Composer makes a second model
call (`modelCalls = 2`) and returns that call's reply, not the apology. -/
theorem composer_apology_shortcircuit_cex :
    stage1Success "NO_VERSE_FOUND" = false ∧
    get_random_quran_quote envC1 (0, 0) = FETCH_APOLOGY ∧
    (get_smart_quran_response envC1 (fun _ => (0, 0)) "sad" "m").modelCalls = 2 ∧
    (get_smart_quran_response envC1 (fun _ => (0, 0)) "sad" "m").output = "EXPLAINED" ∧
    (get_smart_quran_response envC1 (fun _ => (0, 0)) "sad" "m").output ≠ FETCH_APOLOGY := by
  refine ⟨by decide, by decide, by decide, by decide, by decide⟩

/-- C1 amended.  When Stage 1 fails its success test — even when the Quote
Fetcher returned its apology sentinel text (substring match) — the Composer
still makes a second model call, embedding the fetched text in the
explanation prompt, and returns that call's trimmed reply. -/
theorem composer_stage2_always_second_call (env : Env) (rng : Nat → Nat × Nat)
    (mood msg raw : String)
    (h : env.generate (promptDirectVerse mood msg) = some raw)
    (hf : stage1Success (pyStrip raw) = false)
    (_ha : pySub FETCH_APOLOGY (get_random_quran_quote env (rng 0)) = true) :
    (get_smart_quran_response env rng mood msg).modelCalls = 2 ∧
    ∀ raw2,
      env.generate (promptExplainRandom mood msg (get_random_quran_quote env (rng 0))) =
        some raw2 →
      (get_smart_quran_response env rng mood msg).output = pyStrip raw2 := by
  unfold get_smart_quran_response
  rw [h]
  cases g2 : env.generate (promptExplainRandom mood msg
      (get_random_quran_quote env (rng 0))) <;> simp_all

set_option maxRecDepth 8192 in
theorem composer_stage2_always_second_call_witness :
    (get_smart_quran_response envC1 (fun _ => (0, 0)) "sad" "m").modelCalls = 2 ∧
    (get_smart_quran_response envC1 (fun _ => (0, 0)) "sad" "m").output =
      pyStrip "EXPLAINED" := by
  have T := composer_stage2_always_second_call envC1 (fun _ => (0, 0)) "sad" "m"
    "NO_VERSE_FOUND" (by decide) (by decide) (by decide)
  exact ⟨T.1, T.2 "EXPLAINED" (by decide)⟩

/-! ### C5: the Quote Fetcher always returns a display string -/

/-- A successful pass through the fetcher body always produces a formatted
quotation. -/
theorem fetchQuoteE_ok_shape {env : Env} {draws : Nat × Nat} {s : String}
    (h : fetchQuoteE env draws = .ok s) :
    ∃ t name num, s = quoteFormat t name num := by
  unfold fetchQuoteE at h
  cases hs : env.surah (1 + draws.1 % 114) with
  | netError =>
    rw [hs] at h
    exact absurd h (by simp)
  | resp st body =>
    rw [hs] at h
    dsimp only at h
    by_cases h4 : 400 ≤ st
    · rw [if_pos h4] at h
      exact absurd h (by simp)
    · rw [if_neg h4] at h
      cases body with
      | none => exact absurd h (by simp)
      | some j =>
        dsimp only at h
        cases hd : j.idx "data" with
        | error e =>
          rw [hd] at h
          exact absurd h (by simp)
        | ok data =>
          rw [hd] at h
          dsimp only at h
          cases ha : data.idx "ayahs" with
          | error e =>
            rw [ha] at h
            exact absurd h (by simp)
          | ok ayahsJ =>
            rw [ha] at h
            dsimp only at h
            cases ayahsJ with
            | null => simp at h
            | jbool b => simp at h
            | jnum n => simp at h
            | jstr s2 => simp at h
            | jobj o => simp at h
            | jarr ayahs =>
              dsimp only at h
              cases hl : ayahs.toList with
              | nil =>
                rw [hl] at h
                exact absurd h (by simp)
              | cons a as =>
                rw [hl] at h
                dsimp only at h
                cases ht : ((a :: as).getD (draws.2 % (a :: as).length) Json.null).idx "text" with
                | error e =>
                  rw [ht] at h
                  exact absurd h (by simp)
                | ok t =>
                  rw [ht] at h
                  dsimp only at h
                  cases hn : data.idx "englishName" with
                  | error e =>
                    rw [hn] at h
                    exact absurd h (by simp)
                  | ok name =>
                    rw [hn] at h
                    dsimp only at h
                    cases hm : ((a :: as).getD (draws.2 % (a :: as).length) Json.null).idx
                        "numberInSurah" with
                    | error e =>
                      rw [hm] at h
                      exact absurd h (by simp)
                    | ok num =>
                      rw [hm] at h
                      exact ⟨t, name, num, by simpa using h.symm⟩

/-- C5.  The Quote Fetcher never propagates an error: a network failure or a
non-success HTTP status yields the fixed apology, and on every outcome the
result is either the apology or a formatted quotation. -/
theorem fetcher_always_string (env : Env) (draws : Nat × Nat) :
    (env.surah (1 + draws.1 % 114) = .netError →
      get_random_quran_quote env draws = FETCH_APOLOGY) ∧
    (∀ st body, env.surah (1 + draws.1 % 114) = .resp st body → 400 ≤ st →
      get_random_quran_quote env draws = FETCH_APOLOGY) ∧
    (get_random_quran_quote env draws = FETCH_APOLOGY ∨
      ∃ t name num, get_random_quran_quote env draws = quoteFormat t name num) := by
  refine ⟨?_, ?_, ?_⟩
  · intro h
    unfold get_random_quran_quote fetchQuoteE
    rw [h]
  · intro st body h hge
    unfold get_random_quran_quote fetchQuoteE
    rw [h]
    simp [hge]
  · cases hq : fetchQuoteE env draws with
    | error e =>
      left
      unfold get_random_quran_quote
      rw [hq]
    | ok s =>
      right
      obtain ⟨t, name, num, rfl⟩ := fetchQuoteE_ok_shape hq
      refine ⟨t, name, num, ?_⟩
      unfold get_random_quran_quote
      rw [hq]

theorem fetcher_always_string_witness :
    get_random_quran_quote ⟨fun _ => none, fun _ => .resp 500 none⟩ (0, 0) =
      FETCH_APOLOGY :=
  (fetcher_always_string ⟨fun _ => none, fun _ => .resp 500 none⟩ (0, 0)).2.1
    500 none rfl (by omega)

/-! ### C10: the JSON-RPC handler takes the first text part only -/

theorem firstTextLoop_eq_find (parts : List TxPart) :
    firstTextLoop parts =
      match parts.find? isTextPart with
      | some pt => clean_html_text pt.text
      | none => "" := by
  induction parts with
  | nil => rfl
  | cons p rest ih =>
    rw [firstTextLoop, List.find?_cons]
    cases h : isTextPart p <;> simp [h, ih]

/-- C10.  On the `message/send` path, the user message is the cleaned text of
the FIRST part whose type is `"text"` and whose text is non-empty; the
handler's behaviour depends only on that part (later parts are ignored), and
when that part cleans to the empty string the handler raises the 400
"didn't receive a clear message" error instead of trying the next part. -/
theorem message_send_first_text_part (env : Env) (rng : Nat → Nat × Nat)
    (params : TxParams) (pt : TxPart)
    (hf : params.parts.find? isTextPart = some pt) :
    handle_message_send env rng params = txCore env rng (clean_html_text pt.text) ∧
    (clean_html_text pt.text = "" →
      handle_message_send env rng params = .error (400, NO_CLEAR_MESSAGE)) := by
  have h1 : firstTextLoop params.parts = clean_html_text pt.text := by
    rw [firstTextLoop_eq_find, hf]
  constructor
  · rw [handle_message_send, h1]
  · intro he
    rw [handle_message_send, h1, he, txCore]
    simp

def partsC10 : TxParams :=
  ⟨"user", [⟨"data", "x"⟩, ⟨"text", "<b></b>"⟩, ⟨"text", "hello"⟩]⟩

def env0 : Env := ⟨fun _ => none, fun _ => .netError⟩

theorem message_send_first_text_part_witness :
    handle_message_send env0 (fun _ => (0, 0)) partsC10 =
      .error (400, NO_CLEAR_MESSAGE) :=
  (message_send_first_text_part env0 (fun _ => (0, 0)) partsC10
    ⟨"text", "<b></b>"⟩ (by decide)).2 (by decide)

/-! ### C9: RPC dispatch order — the version check precedes the method check

The claim asserts every well-formed request with a method other than
`message/send` receives the `-32601` error.  The code checks the `jsonrpc`
version first, so a request that is wrong on both counts receives `-32600`. -/

def reqC9 : RpcRequest := ⟨"1.0", "foo", .null, ⟨"user", []⟩⟩

/-- Counterexample to C9: a well-formed request whose method is not
`message/send` (and whose version is "1.0") is answered with error code
`-32600`, not `-32601`. -/
theorem rpc_method_error_cex :
    reqC9.method ≠ "message/send" ∧
    (handle_telex_rpc_request env0 (fun _ => (0, 0)) reqC9).2.errCode = some (-32600) ∧
    (handle_telex_rpc_request env0 (fun _ => (0, 0)) reqC9).2.errCode ≠ some (-32601) := by
  refine ⟨by decide, by decide, by decide⟩

/-- C9 amended.  The version check runs first: a request whose `jsonrpc` is
not `"2.0"` gets the `-32600` error (status 400); a request with the correct
version and a method other than `message/send` gets the `-32601`
"Method not found" error (status 405); in both cases the status is not a
500-class internal error. -/
theorem rpc_dispatch (env : Env) (rng : Nat → Nat × Nat) (req : RpcRequest) :
    (req.jsonrpc ≠ "2.0" →
      handle_telex_rpc_request env rng req =
        (400, .rpcError req.id (-32600) VERSION_ERROR_MESSAGE)) ∧
    (req.jsonrpc = "2.0" → req.method ≠ "message/send" →
      handle_telex_rpc_request env rng req =
        (405, .rpcError req.id (-32601) "Method not found")) ∧
    ((req.jsonrpc ≠ "2.0" ∨ req.method ≠ "message/send") →
      (handle_telex_rpc_request env rng req).1 ≠ 500) := by
  unfold handle_telex_rpc_request
  refine ⟨?_, ?_, ?_⟩
  · intro h
    rw [if_pos h]
  · intro h1 h2
    rw [if_neg (by simp [h1]), if_neg h2]
  · intro h
    by_cases hv : req.jsonrpc ≠ "2.0"
    · rw [if_pos hv]
      simp
    · rcases h with h | h
      · exact absurd h hv
      · rw [if_neg hv, if_neg h]
        simp

theorem rpc_dispatch_witness :
    handle_telex_rpc_request env0 (fun _ => (0, 0)) reqC9 =
      (400, .rpcError .null (-32600) VERSION_ERROR_MESSAGE) ∧
    handle_telex_rpc_request env0 (fun _ => (0, 0)) ⟨"2.0", "foo", .null, ⟨"user", []⟩⟩ =
      (405, .rpcError .null (-32601) "Method not found") :=
  ⟨(rpc_dispatch env0 (fun _ => (0, 0)) reqC9).1 (by decide),
   (rpc_dispatch env0 (fun _ => (0, 0)) ⟨"2.0", "foo", .null, ⟨"user", []⟩⟩).2.1
     rfl (by decide)⟩

/-! ### C3: the nested-list extraction stage -/

/-- What one entry of the inner message list contributes: for a dict entry,
the cleaned value of its `text`/`content`/`message` priority chain when that
cleans to something non-empty. -/
def entryHit (e : Json) : Option String :=
  match e with
  | .jobj f =>
    match cleanJson (orChain f) with
    | .ok c => if c = "" then none else some c
    | .error _ => none
  | _ => none

/-- An entry that does not raise while being cleaned: a non-dict (skipped) or
a dict whose priority chain is falsy or a string. -/
def entrySafe (e : Json) : Bool :=
  match e with
  | .jobj f =>
    match cleanJson (orChain f) with
    | .ok _ => true
    | .error _ => false
  | _ => true

/-- The stage-1 scanning loop returns the first `entryHit` of the scanned
list when no entry raises. -/
theorem scanEntries_eq_findSome (l : List Json) (hs : ∀ e ∈ l, entrySafe e = true) :
    scanEntries l = .ok (l.findSome? entryHit) := by
  induction l with
  | nil => rfl
  | cons e rest ih =>
    have hse := hs e (List.mem_cons_self _ _)
    have hrest := ih fun b hb => hs b (List.mem_cons_of_mem _ hb)
    cases e with
    | jobj f =>
      rw [scanEntries]
      cases hc : cleanJson (orChain f) with
      | error u =>
        rw [entrySafe, hc] at hse
        simp at hse
      | ok c =>
        by_cases hce : c = ""
        · simp [hc, hce, List.findSome?_cons, entryHit, hrest]
        · simp [hc, hce, List.findSome?_cons, entryHit]
    | null => simpa [scanEntries, List.findSome?_cons, entryHit] using hrest
    | jbool b => simpa [scanEntries, List.findSome?_cons, entryHit] using hrest
    | jnum n => simpa [scanEntries, List.findSome?_cons, entryHit] using hrest
    | jstr s2 => simpa [scanEntries, List.findSome?_cons, entryHit] using hrest
    | jarr xs => simpa [scanEntries, List.findSome?_cons, entryHit] using hrest

/-- C3.  On a nested-list payload (`messages` list whose first element is a
dict with its own `messages` list), the extractor scans the inner list in
reverse and returns the cleaned value of the first entry whose
`text`/`content`/`message` field (in that priority, by Python truthiness)
cleans to a non-empty string — provided no entry raises while being
inspected. -/
theorem extractor_nested_reverse_scan (fs f1 : JsonObj) (rest inner : JsonArr)
    (s : String)
    (h1 : fs.lookup "messages" = some (.jarr (.acons (.jobj f1) rest)))
    (h2 : f1.lookup "messages" = some (.jarr inner))
    (h3 : ∀ e ∈ inner.toList, entrySafe e = true)
    (h4 : inner.toList.reverse.findSome? entryHit = some s) :
    extract_user_message_generic (.jobj fs) = s := by
  have hscan : scanEntries inner.toList.reverse = .ok (some s) := by
    rw [scanEntries_eq_findSome _ fun e he => h3 e (List.mem_reverse.mp he), h4]
  unfold extract_user_message_generic extractE nestedStage
  dsimp only
  rw [h1]
  dsimp only
  rw [h2]
  cases inner with
  | anil => simp [JsonArr.toList] at h4
  | acons a t =>
    dsimp only
    rw [hscan]

def payloadC3 : Json :=
  .jobj (.ocons "messages"
    (.jarr (.acons (.jobj (.ocons "messages"
      (.jarr (.acons (.jobj (.ocons "text" (.jstr "a") .onil))
        (.acons (.jobj (.ocons "text" (.jstr "b") .onil)) .anil))) .onil)) .anil)) .onil)

theorem extractor_nested_reverse_scan_witness :
    extract_user_message_generic payloadC3 = "b" :=
  extractor_nested_reverse_scan _ _ _ _ "b" rfl rfl (by decide) (by decide)

/-! ### C6: the extractor returns `""` on no match and on any exception -/

/-- C6.  The extractor returns the empty string when its body raises (so no
exception is ever propagated — the result is always a plain string) and when
no extraction stage matches (the nested stage finds nothing, no flat string
field is present, and the deep scan collects nothing). -/
theorem extractor_no_raise (p : Json) :
    (extractE p = .error () → extract_user_message_generic p = "") ∧
    (∀ fs, p = .jobj fs → nestedStage fs = .ok none → flatStage fs = none →
      collectTexts (.jobj fs) = [] → extract_user_message_generic p = "") := by
  constructor
  · intro h
    unfold extract_user_message_generic
    rw [h]
  · rintro fs rfl h1 h2 h3
    unfold extract_user_message_generic extractE
    dsimp only
    rw [h1]
    dsimp only
    rw [h2, h3]
    rfl

def payloadErr : Json :=
  .jobj (.ocons "messages" (.jarr (.acons (.jstr "x") .anil)) .onil)

def payloadNoMatch : Json := .jobj (.ocons "foo" (.jstr "bar") .onil)

theorem extractor_no_raise_witness :
    extract_user_message_generic payloadErr = "" ∧
    extract_user_message_generic payloadNoMatch = "" :=
  ⟨(extractor_no_raise payloadErr).1 rfl,
   (extractor_no_raise payloadNoMatch).2 _ rfl rfl rfl rfl⟩

/-! ### C7: response determinism under stubbed external calls

The spec claims byte-identical responses for identical payloads once the
external calls (model and verse API) are stubbed deterministically.  But
`get_random_quran_quote` draws from the process-wide PRNG (`random.randint`,
`random.choice`), which is not an external call: two runs that reach the
Quote Fetcher consume different draws and can produce different responses
even with deterministic stubs.  Determinism does hold on every run that makes
no Quote Fetcher call. -/

/-- A composer run that made no Quote Fetcher call never consulted the PRNG,
so its result is independent of the random draws. -/
theorem gsr_rng_free_of_no_fetch (env : Env) (rng rng' : Nat → Nat × Nat)
    (mood msg : String)
    (h : (get_smart_quran_response env rng mood msg).fetchCalls = 0) :
    get_smart_quran_response env rng mood msg =
      get_smart_quran_response env rng' mood msg := by
  unfold get_smart_quran_response at h ⊢
  cases hg : env.generate (promptDirectVerse mood msg) with
  | none =>
    rw [hg] at h
    simp at h
  | some raw =>
    rw [hg] at h
    dsimp only at h ⊢
    by_cases hs : stage1Success (pyStrip raw) = true
    · rw [if_pos hs, if_pos hs]
    · rw [if_neg hs] at h
      cases g2 : env.generate (promptExplainRandom mood msg
          (get_random_quran_quote env (rng 0))) <;> simp [g2] at h

def rngA : Nat → Nat × Nat := fun _ => (0, 0)

def rngB : Nat → Nat × Nat := fun _ => (0, 1)

def surahBodyC7 : Json :=
  .jobj (.ocons "data" (.jobj
    (.ocons "englishName" (.jstr "Alpha")
    (.ocons "ayahs" (.jarr
      (.acons (.jobj (.ocons "text" (.jstr "Light")
        (.ocons "numberInSurah" (.jnum 1) .onil)))
      (.acons (.jobj (.ocons "text" (.jstr "Mercy")
        (.ocons "numberInSurah" (.jnum 2) .onil)))
      .anil))) .onil))) .onil)

/-- A deterministic stub environment: the model stub classifies the mood as
`sad`, declines Stage 1 with the sentinel, and echoes any other prompt; the
verse-API stub always returns the same two-ayah chapter. -/
def envC7 : Env :=
  ⟨fun prompt =>
    if prompt = moodPrompt "sad day today" then some "sad"
    else if prompt = promptDirectVerse "sad" "sad day today" then some "NO_VERSE_FOUND"
    else some prompt,
   fun _ => .resp 200 (some surahBodyC7)⟩

def payloadC7 : Json := .jobj (.ocons "message" (.jstr "sad day today") .onil)

set_option maxRecDepth 16384 in
/-- Counterexample to C7: with all external calls deterministically stubbed,
two runs of the pipeline on the same payload produce different responses,
because the PRNG draws consumed by the Quote Fetcher differ between runs. -/
theorem agent_idempotence_cex :
    (agent_endpoint envC7 rngA payloadC7).1 ≠ (agent_endpoint envC7 rngB payloadC7).1 := by
  decide

/-- C7 amended.  With deterministic stubs, identical payloads yield identical
responses provided the run makes no Quote Fetcher call (the PRNG is consumed
only inside the Quote Fetcher); runs that reach the Quote Fetcher also
require identical PRNG draws. -/
theorem agent_deterministic_no_fetch (env : Env) (rng1 rng2 : Nat → Nat × Nat)
    (p : Json) (h : (agent_endpoint env rng1 p).2 = 0) :
    (agent_endpoint env rng1 p).1 = (agent_endpoint env rng2 p).1 := by
  unfold agent_endpoint agentCore at h ⊢
  by_cases h1 : (computeUserMessage p = "" ||
      pyStrip (computeUserMessage p) = "") = true
  · rw [if_pos h1, if_pos h1]
  · rw [if_neg h1] at h
    rw [if_neg h1, if_neg h1]
    by_cases h2 : isGreeting (pyLowerL (computeUserMessage p).data) = true
    · rw [if_pos h2, if_pos h2]
    · rw [if_neg h2] at h
      rw [if_neg h2, if_neg h2]
      dsimp only at h ⊢
      by_cases h3 : detect_mood_with_gemini
          (env.generate (moodPrompt (computeUserMessage p))) = "unknown"
      · rw [if_pos h3, if_pos h3]
      · rw [if_neg h3] at h
        rw [if_neg h3, if_neg h3]
        dsimp only at h ⊢
        rw [gsr_rng_free_of_no_fetch env rng1 rng2 _ _ h]

/-- A stub environment whose Stage 1 always succeeds, so no run fetches. -/
def envC7b : Env :=
  ⟨fun prompt =>
    if prompt = moodPrompt "sad day today" then some "sad"
    else some "Verse: x Explanation: y",
   fun _ => .netError⟩

set_option maxRecDepth 16384 in
theorem agent_deterministic_no_fetch_witness :
    (agent_endpoint envC7b rngA payloadC7).1 = (agent_endpoint envC7b rngB payloadC7).1 :=
  agent_deterministic_no_fetch envC7b rngA rngB payloadC7 (by decide)

/-! ### C8: the Text Cleaner is not idempotent

`clean_html_text` decodes character references twice — once in
`html.unescape` and once inside the parser — so an input like
`&amp;lt;b&amp;gt;` cleans to `<b>`, which cleans again to `""`.  Idempotence
does hold on inputs whose cleaned form is free of `<` and `&`. -/

set_option maxRecDepth 8192 in
/-- Counterexample to C8: the cleaner is not idempotent. -/
theorem clean_not_idempotent_cex :
    clean_html_text (clean_html_text "&amp;lt;b&amp;gt;") ≠
      clean_html_text "&amp;lt;b&amp;gt;" := by
  decide

theorem mapFixed {α : Type} (f : α → α) (l : List α) (h : ∀ c ∈ l, f c = c) :
    l.map f = l := by
  induction l with
  | nil => rfl
  | cons a t ih =>
    rw [List.map_cons, h a (List.mem_cons_self _ _),
      ih fun c hc => h c (List.mem_cons_of_mem _ hc)]

theorem unescapeL_of_no_amp (l : List Char) (h : '&' ∉ l) : unescapeL l = l := by
  unfold unescapeL
  induction l with
  | nil => rfl
  | cons c t ih =>
    have hc : c ≠ '&' := fun hx => h (hx ▸ List.mem_cons_self _ _)
    simp only [uGo]
    rw [if_neg hc, ih fun hx => h (List.mem_cons_of_mem _ hx)]

theorem smGo_no_lt (l : List Char) (h : '<' ∉ l) :
    ∀ acc, smGo l acc none = [acc.reverse ++ l] := by
  induction l with
  | nil =>
    intro acc
    simp [smGo]
  | cons c t ih =>
    intro acc
    have hc : c ≠ '<' := fun hx => h (hx ▸ List.mem_cons_self _ _)
    simp only [smGo]
    rw [if_neg hc, ih (fun hx => h (List.mem_cons_of_mem _ hx)) (c :: acc)]
    simp

theorem splitMarkup_no_lt (l : List Char) (h : '<' ∉ l) : splitMarkup l = [l] := by
  rw [splitMarkup, smGo_no_lt l h []]
  simp

theorem squash_mem {c : Char} {l : List Char} (h : c ∈ squashSpaces l) : c ∈ l := by
  induction l using squashSpaces.induct <;> simp_all [squashSpaces]
  · rename_i hcond ih
    split at h <;> simp_all
    tauto

theorem squash_ne_nil {l : List Char} (h : l ≠ []) : squashSpaces l ≠ [] := by
  induction l using squashSpaces.induct <;> simp_all [squashSpaces]
  · rename_i hcond ih
    split <;> simp_all

theorem squash_getLast? (l : List Char) : (squashSpaces l).getLast? = l.getLast? := by
  induction l using squashSpaces.induct with
  | case1 => rfl
  | case2 c => rfl
  | case3 a b r hcond ih =>
    rw [squashSpaces, if_pos hcond, ih, List.getLast?_cons_cons]
  | case4 a b r hcond ih =>
    rw [squashSpaces, if_neg hcond, List.getLast?_cons, ih, List.getLast?_cons_cons]
    cases hgl : (b :: r).getLast? with
    | none => simp at hgl
    | some d => simp [hgl]

theorem squash_head_ne_space {d : Char} (hd : d ≠ ' ') (m : List Char) :
    (squashSpaces (d :: m)).head? = some d := by
  cases m with
  | nil => rfl
  | cons b r =>
    rw [squashSpaces, if_neg (by simp [hd])]
    rfl

/-- No two adjacent spaces. -/
def noAdjSp : List Char → Bool
  | a :: b :: r => (!(a = ' ' && b = ' ')) && noAdjSp (b :: r)
  | _ => true

theorem noAdjSp_cons {a : Char} {X : List Char} (hX : noAdjSp X = true)
    (h : ∀ d, X.head? = some d → a = ' ' → d ≠ ' ') : noAdjSp (a :: X) = true := by
  cases X with
  | nil => rfl
  | cons d r =>
    have hd := h d rfl
    simp only [noAdjSp, Bool.and_eq_true, Bool.not_eq_true']
    refine ⟨?_, hX⟩
    by_cases ha : a = ' '
    · simp [ha, hd ha]
    · simp [ha]

theorem squash_noAdjSp (l : List Char) : noAdjSp (squashSpaces l) = true := by
  induction l using squashSpaces.induct with
  | case1 => rfl
  | case2 c => rfl
  | case3 a b r hcond ih => rw [squashSpaces, if_pos hcond]; exact ih
  | case4 a b r hcond ih =>
    rw [squashSpaces, if_neg hcond]
    refine noAdjSp_cons ih ?_
    intro d hd ha
    have hb : b ≠ ' ' := by
      intro hb
      exact hcond (by simp [ha, hb])
    rw [squash_head_ne_space hb] at hd
    cases hd
    exact hb

theorem noAdjSp_squash_id (l : List Char) (h : noAdjSp l = true) :
    squashSpaces l = l := by
  induction l using squashSpaces.induct with
  | case1 => rfl
  | case2 c => rfl
  | case3 a b r hcond ih =>
    simp only [noAdjSp, Bool.and_eq_true, Bool.not_eq_true'] at h
    rw [h.1] at hcond
    cases hcond
  | case4 a b r hcond ih =>
    simp only [noAdjSp, Bool.and_eq_true, Bool.not_eq_true'] at h
    rw [squashSpaces, if_neg hcond, ih h.2]

theorem squash_squash (l : List Char) :
    squashSpaces (squashSpaces l) = squashSpaces l :=
  noAdjSp_squash_id _ (squash_noAdjSp l)

theorem toSpaceChar_fix (c : Char) : toSpaceChar (toSpaceChar c) = toSpaceChar c := by
  by_cases h : isPySpace c = true
  · simp only [toSpaceChar, h]
    simp [show isPySpace ' ' = true from by decide]
  · simp [toSpaceChar, h]

theorem collapseWs_collapseWs (l : List Char) :
    collapseWs (collapseWs l) = collapseWs l := by
  unfold collapseWs
  rw [mapFixed toSpaceChar (squashSpaces (l.map toSpaceChar)) ?_]
  · exact squash_squash _
  · intro c hc
    obtain ⟨d, _, rfl⟩ := List.mem_map.mp (squash_mem hc)
    exact toSpaceChar_fix d

theorem stripped_head {l : List Char} {c : Char}
    (hc : (pyStripL l).head? = some c) : isPySpace c = false := by
  have hpre : pyStripL l <+: l.dropWhile isPySpace := List.rdropWhile_prefix _ _
  have hne : pyStripL l ≠ [] := by
    intro h0
    rw [h0] at hc
    cases hc
  have hh := List.IsPrefix.head hpre hne
  rw [List.head?_eq_head hne] at hc
  have hcc : (l.dropWhile isPySpace).head (hpre.ne_nil hne) = c := by
    rw [← hh]
    exact (Option.some.inj hc)
  rw [← hcc]
  exact List.head_dropWhile_not isPySpace l _

theorem stripped_last {l : List Char} {c : Char}
    (hc : (pyStripL l).getLast? = some c) : isPySpace c = false := by
  have hne : pyStripL l ≠ [] := by
    intro h0
    rw [h0] at hc
    cases hc
  have := List.rdropWhile_last_not (p := isPySpace) (l := l.dropWhile isPySpace) hne
  rw [List.getLast?_eq_getLast _ hne] at hc
  have hcc := Option.some.inj hc
  rw [← hcc]
  simpa using this

theorem head_ws_false_of_cleanForm {z : List Char} {c : Char}
    (hc : (collapseWs (pyStripL z)).head? = some c) : isPySpace c = false := by
  cases hw : pyStripL z with
  | nil =>
    rw [hw] at hc
    cases hc
  | cons d w =>
    have hd : isPySpace d = false := stripped_head (l := z) (by rw [hw]; rfl)
    have hd' : d ≠ ' ' := by
      intro h0
      rw [h0] at hd
      exact absurd hd (by decide)
    rw [hw, collapseWs, List.map_cons,
      show toSpaceChar d = d from by simp [toSpaceChar, hd],
      squash_head_ne_space hd'] at hc
    cases hc
    exact hd

theorem last_ws_false_of_cleanForm {z : List Char} {c : Char}
    (hc : (collapseWs (pyStripL z)).getLast? = some c) : isPySpace c = false := by
  rw [collapseWs, squash_getLast?, List.getLast?_map] at hc
  cases hl : (pyStripL z).getLast? with
  | none =>
    rw [hl] at hc
    cases hc
  | some d =>
    rw [hl] at hc
    have hd := stripped_last (l := z) hl
    have hcc := Option.some.inj hc
    rw [← hcc, show toSpaceChar d = d from by simp [toSpaceChar, hd]]
    exact hd

theorem pyStripL_cleanForm (z : List Char) :
    pyStripL (collapseWs (pyStripL z)) = collapseWs (pyStripL z) := by
  have h1 : (collapseWs (pyStripL z)).dropWhile isPySpace = collapseWs (pyStripL z) := by
    cases hv : collapseWs (pyStripL z) with
    | nil => rfl
    | cons c t =>
      have hcw : isPySpace c = false :=
        head_ws_false_of_cleanForm (z := z) (by rw [hv]; rfl)
      rw [List.dropWhile_cons, hcw]
      simp
  have h2 : (collapseWs (pyStripL z)).rdropWhile isPySpace = collapseWs (pyStripL z) := by
    rw [List.rdropWhile_eq_self_iff]
    intro hl
    have hgl := List.getLast?_eq_getLast _ hl
    have := last_ws_false_of_cleanForm (z := z) hgl
    simp [this]
  have hdef : pyStripL (collapseWs (pyStripL z)) =
      ((collapseWs (pyStripL z)).dropWhile isPySpace).rdropWhile isPySpace := rfl
  rw [hdef, h1, h2]

theorem collapseWs_no_nbsp (l : List Char) {c : Char} (hc : c ∈ collapseWs l) :
    c.toNat ≠ 160 := by
  obtain ⟨d, _, rfl⟩ := List.mem_map.mp (squash_mem hc)
  by_cases hd : isPySpace d = true
  · simp only [toSpaceChar, hd, if_true]
    decide
  · simp only [toSpaceChar, hd]
    rw [if_neg (by simp [hd])]
    simp only [isPySpace, Bool.or_eq_true, decide_eq_true_eq] at hd
    omega

theorem replaceNbsp_fix {l : List Char} (h : ∀ c ∈ l, c.toNat ≠ 160) :
    replaceNbsp l = l := by
  unfold replaceNbsp
  apply mapFixed
  intro c hc
  simp [h c hc]

theorem intercalate_singleton (s x : List Char) : List.intercalate s [x] = x := by
  simp [List.intercalate]

/-- C8 amended.  `clean_html_text` is idempotent on every input whose cleaned
form contains neither `<` nor `&` (the counterexample above shows the
unrestricted claim fails: entity decoding happens twice, so a cleaned output
containing markup is re-interpreted on the second pass). -/
theorem clean_idempotent_of_plain (x : String)
    (h1 : '<' ∉ (clean_html_text x).data)
    (h2 : '&' ∉ (clean_html_text x).data) :
    clean_html_text (clean_html_text x) = clean_html_text x := by
  unfold clean_html_text at h1 h2 ⊢
  dsimp only at h1 h2 ⊢
  congr 1
  by_cases hx : x.data.isEmpty
  · have hy : cleanL x.data = [] := by rw [cleanL, if_pos hx]
    rw [hy]
    rfl
  · have hy : cleanL x.data =
        collapseWs (pyStripL (replaceNbsp (getTextL (unescapeL x.data)))) := by
      rw [cleanL, if_neg hx]
    rw [hy] at h1 h2 ⊢
    by_cases hyz : (collapseWs (pyStripL (replaceNbsp (getTextL (unescapeL x.data))))).isEmpty
    · rw [cleanL, if_pos hyz]
      exact (List.isEmpty_iff.mp hyz).symm
    · rw [cleanL, if_neg hyz]
      have hyne : collapseWs (pyStripL (replaceNbsp (getTextL (unescapeL x.data)))) ≠ [] :=
        fun h0 => hyz (by rw [h0]; rfl)
      have hstrip := pyStripL_cleanForm (replaceNbsp (getTextL (unescapeL x.data)))
      have hu := unescapeL_of_no_amp _ h2
      have hsplit := splitMarkup_no_lt _ h1
      have hempty : (collapseWs (pyStripL (replaceNbsp
          (getTextL (unescapeL x.data))))).isEmpty = false := by
        rw [← Bool.not_eq_true]
        exact hyz
      have hget : getTextL (collapseWs (pyStripL (replaceNbsp
          (getTextL (unescapeL x.data))))) =
          collapseWs (pyStripL (replaceNbsp (getTextL (unescapeL x.data)))) := by
        rw [getTextL, getTextFragments, hsplit]
        rw [List.map_singleton, hu, hstrip]
        rw [List.filter_singleton]
        rw [hempty]
        simp [intercalate_singleton]
      have hnb : replaceNbsp (collapseWs (pyStripL (replaceNbsp
          (getTextL (unescapeL x.data))))) =
          collapseWs (pyStripL (replaceNbsp (getTextL (unescapeL x.data)))) :=
        replaceNbsp_fix fun c hc => collapseWs_no_nbsp _ hc
      rw [hu, hget, hnb, hstrip]
      exact collapseWs_collapseWs _

theorem clean_idempotent_of_plain_witness :
    clean_html_text (clean_html_text "<b>Hi&nbsp;there</b>") =
      clean_html_text "<b>Hi&nbsp;there</b>" :=
  clean_idempotent_of_plain "<b>Hi&nbsp;there</b>" (by decide) (by decide)

end QuranAgent
